import Mathlib

/-!
Shallow embedding of the api_yamdb repository (a Django REST content-review
API) for specification checking.

Sources embedded:
* src/api_yamdb/reviews/models.py — the relational data model (User, Titles,
  Categories, Genres, Reviews, Comments).
* src/api_yamdb/api/views.py — the request handlers (UserViewSet, signup,
  get_token, TitlesViewSet, CategoriesViewSet, GenresViewSet, ReviewsViewSet).
* src/api_yamdb/api/serializers.py — the model serializers present in the
  repository (Titles/Categories/Genres).

The repository's registration helpers (confirm_code_generator,
token_generator) and the serializers referenced by views.py but absent from
the sources (UserSerializer, SignUpSerializer, GetTokenSerializer,
ReviewsSerializer) are modelled from the spec where needed; each such
definition carries a doc comment starting with "Modelled from the spec:".

The database is a record of lists of rows; each handler is a pure function
from a database and a request body to a new database and an HTTP response.
-/

set_option linter.unusedVariables false

namespace YaMDB

/-- Role choices, from reviews/models.py ROLES. -/
def ROLES : List String := ["user", "moderator", "admin"]

/-- User row, from reviews/models.py class User(AbstractUser): username and
email come from AbstractUser (username is the unique lookup key), bio and
role are declared in the file. The confirmation_code column is read and
written by views.py (signup / get_token) and listed in the spec's data-model
table; its value is an opaque code. Modelled from the spec: confirmation
codes are opaque freshly generated values, represented here as naturals
drawn from a per-database counter. -/
structure User where
  username : String
  email : String
  bio : Option String
  role : Option String
  confirmation_code : Nat
deriving DecidableEq

/-- Title row, from reviews/models.py class Titles. -/
structure Titles where
  id : Nat
  name : String
  year : Int
  description : Option String
  genre : String
  category : String
deriving DecidableEq

/-- Category row, from reviews/models.py class Categories: name (CharField,
max_length 256) and slug (SlugField, max_length 50). Note the model declares
no uniqueness on slug. -/
structure Categories where
  name : String
  slug : String
deriving DecidableEq

/-- Genre row, from reviews/models.py class Genres: name (CharField,
max_length 256) and slug (SlugField, max_length 50). Note the model declares
no uniqueness on slug. -/
structure Genres where
  name : String
  slug : String
deriving DecidableEq

/-- Review row, from reviews/models.py class Reviews: title and author are
foreign keys (represented by the title id and the author username), text and
score are the payload, pub_date is auto-set. -/
structure Reviews where
  id : Nat
  title : Nat
  author : String
  text : String
  score : Int
  pub_date : Nat
deriving DecidableEq

/-- The relational store: one list of rows per table, plus a counter feeding
the confirmation-code generator and a primary-key counter for reviews. -/
structure DB where
  users : List User
  titles : List Titles
  categories : List Categories
  genres : List Genres
  reviews : List Reviews
  codeSeq : Nat
  nextReviewId : Nat
deriving DecidableEq

/-- The empty database. -/
def DB.empty : DB :=
  { users := [], titles := [], categories := [], genres := [],
    reviews := [], codeSeq := 0, nextReviewId := 0 }

/-- An HTTP response: a status code and a typed body. -/
structure Resp (α : Type) where
  status : Nat
  body : α
deriving DecidableEq

/-! ## Titles endpoint: rating annotation (views.py TitlesViewSet)

`queryset = Title.objects.annotate(rating=Avg("reviews__score"))`:
each title row is joined with its reviews (the reverse foreign key
`reviews`), and the SQL AVG aggregate of the review scores is attached as
`rating`; AVG over an empty group is NULL. -/

/-- The scores of the reviews whose title foreign key is the given title id
(the `reviews__score` join path). -/
def reviewScoresOf (db : DB) (titleId : Nat) : List Int :=
  (db.reviews.filter (fun r => r.title == titleId)).map (fun r => r.score)

/-- SQL AVG aggregate: a running (sum, row-count) pair over the grouped rows,
NULL (none) when the group is empty, otherwise sum divided by count. -/
def avgAggregate (scores : List Int) : Option ℚ :=
  let p := scores.foldl (fun (acc : ℚ × Nat) (s : Int) => (acc.1 + (s : ℚ), acc.2 + 1)) ((0 : ℚ), 0)
  if p.2 = 0 then none else some (p.1 / (p.2 : ℚ))

/-- The annotated queryset of TitlesViewSet: every title paired with its
rating annotation. List responses serialize exactly these pairs. -/
def annotate_rating (db : DB) : List (Titles × Option ℚ) :=
  db.titles.map (fun t => (t, avgAggregate (reviewScoresOf db t.id)))

/-- Retrieve of TitlesViewSet: look the annotated queryset up by id. -/
def titlesRetrieve (db : DB) (titleId : Nat) : Option (Titles × Option ℚ) :=
  (annotate_rating db).find? (fun p => p.1.id == titleId)

/-- The spec's wording: the arithmetic mean of the associated review scores,
absent when there are no reviews. -/
def arithmeticMean (scores : List Int) : Option ℚ :=
  if scores = [] then none else some (((scores.sum : Int) : ℚ) / (scores.length : ℚ))

/-! ## Categories endpoint (views.py CategoriesViewSet) -/

/-- CategoriesViewSet.retrieve (views.py): unconditionally returns
`Response(status=405 METHOD_NOT_ALLOWED)`, never touching the store or the
slug. -/
def categoriesRetrieve (db : DB) (slug : String) : DB × Resp Unit :=
  (db, { status := 405, body := () })

/-- Whether some category row carries the given slug (only used to state
that `categoriesRetrieve` ignores existence). -/
def categorySlugExists (db : DB) (slug : String) : Bool :=
  db.categories.any (fun c => c.slug == slug)

/-! ## Auth endpoints (views.py signup / get_token) -/

/-- Request body of POST /auth/signup. Modelled from the spec:
SignUpSerializer is absent from the sources; per the spec the body carries a
username and an email, and a well-formed body supplies both (nonempty). -/
structure SignUpBody where
  username : String
  email : String
deriving DecidableEq

/-- Modelled from the spec: SignUpSerializer validation — username and email
must be supplied. -/
def signUpValid (b : SignUpBody) : Bool :=
  (b.username != "") && (b.email != "")

/-- Modelled from the spec: the confirmation-code generator
(registration/confirm_code_generator.generator, absent from the sources)
produces a fresh opaque code on every call, represented by the database's
code counter, which every signup call advances. -/
def generator (db : DB) : Nat := db.codeSeq

inductive SignUpResult where
  | echoed (username : String) (email : String)
  | errors
deriving DecidableEq

/-- The lookup key of `User.objects.get_or_create(username=..., email=...)`:
whether a row carries the body's (username, email) pair. -/
def pairPred (b : SignUpBody) (u : User) : Bool :=
  u.username == b.username && u.email == b.email

/-- get_or_create by (username, email): keep the table when a row with the
pair exists, otherwise append a fresh row built from the pair. -/
def getOrCreateUsers (db : DB) (b : SignUpBody) : List User :=
  match db.users.find? (pairPred b) with
  | some _ => db.users
  | none => db.users ++
      [{ username := b.username, email := b.email, bio := none, role := none,
         confirmation_code := 0 }]

/-- The save of `user.confirmation_code = generator(); user.save()`: the row
fetched or created for the pair gets the freshly generated code. -/
def storeCode (db : DB) (b : SignUpBody) (users : List User) : List User :=
  users.map (fun u =>
    if pairPred b u then { u with confirmation_code := generator db } else u)

/-- The signup view (views.py): validate the body; get_or_create the user by
(username, email); overwrite the user's confirmation_code with a freshly
generated code and save; dispatch the code by email (an external
fire-and-forget effect with no bearing on the store); return the echoed body
with 200. An invalid body yields 400. -/
def signup (db : DB) (b : SignUpBody) : DB × Resp SignUpResult :=
  if signUpValid b then
    ({ db with users := storeCode db b (getOrCreateUsers db b),
               codeSeq := db.codeSeq + 1 },
     { status := 200, body := .echoed b.username b.email })
  else
    (db, { status := 400, body := .errors })

/-- How many rows carry the body's (username, email) pair. -/
def pairCount (db : DB) (b : SignUpBody) : Nat :=
  db.users.countP (pairPred b)

/-- n successive signup calls with the same body. -/
def signupMany (db : DB) (b : SignUpBody) : Nat → DB
  | 0 => db
  | n + 1 => (signup (signupMany db b n) b).1

/-- Request body of POST /auth/token. Modelled from the spec:
GetTokenSerializer is absent from the sources; a well-formed body supplies a
username and a confirmation code. -/
structure GetTokenBody where
  username : String
  confirmation_code : Nat
deriving DecidableEq

/-- Modelled from the spec: the token-issuance utility
(registration/token_generator.get_tokens_for_user, absent from the sources)
takes the user identity in and returns a signed token bound to the user's
identity and role. -/
structure Token where
  username : String
  role : Option String
deriving DecidableEq

/-- Modelled from the spec: token issuance binds the token to the user's
identity and role. -/
def get_tokens_for_user (u : User) : Token :=
  { username := u.username, role := u.role }

inductive TokenResult where
  | token (t : Token)
  | errors
deriving DecidableEq

/-- The get_token view (views.py): with a well-formed body, look the user up
by username (`User.objects.filter(username=username).first()`); 404 when
absent; 400 when the stored confirmation_code differs from the submitted
one; otherwise 200 with the issued token. The store is never written. -/
def get_token (db : DB) (b : GetTokenBody) : DB × Resp TokenResult :=
  match db.users.find? (fun u => u.username == b.username) with
  | some user =>
      if user.confirmation_code == b.confirmation_code then
        (db, { status := 200, body := .token (get_tokens_for_user user) })
      else
        (db, { status := 400, body := .errors })
  | none => (db, { status := 404, body := .errors })

/-- Folding any number of get_token calls over the store (each call keeps
only the resulting database state). -/
def getTokenMany (db : DB) (bs : List GetTokenBody) : DB :=
  bs.foldl (fun d b => (get_token d b).1) db

/-! ## Users endpoints (views.py UserViewSet) -/

/-- Request body for the user endpoints; with partial updates every field is
optional. -/
structure UserBody where
  username : Option String
  email : Option String
  bio : Option String
  role : Option String
deriving DecidableEq

/-- Modelled from the spec: UserSerializer field validation (the serializer
is absent from the sources). The role column is a choice field over ROLES
(reviews/models.py), so a supplied role outside the choices fails
validation; absent fields are skipped (partial=True). -/
def userFieldsValid (b : UserBody) : Bool :=
  match b.role with
  | none => true
  | some r => ROLES.contains r

/-- Modelled from the spec: non-partial validation additionally requires the
username and email fields to be supplied. -/
def userRequiredValid (b : UserBody) : Bool :=
  b.username.isSome && b.email.isSome && userFieldsValid b

inductive UserResult where
  | profile (u : User)
  | echoed (b : UserBody)
  | errors
deriving DecidableEq

inductive Method where
  | get
  | patch
deriving DecidableEq

namespace UserViewSet

/-- UserViewSet.create (views.py): validate the body; if some user already
holds the submitted email (`User.objects.filter(email=email).first()`),
answer 400 without touching the store; otherwise get_or_create a user from
the serializer data and answer 201 with the echoed data. -/
def create (db : DB) (b : UserBody) : DB × Resp UserResult :=
  if userRequiredValid b then
    let email := b.email.getD ""
    match db.users.find? (fun u => u.email == email) with
    | some _ => (db, { status := 400, body := .errors })
    | none =>
        let newU : User := { username := b.username.getD "", email := email,
                             bio := b.bio, role := b.role, confirmation_code := 0 }
        match db.users.find? (fun u =>
            u.username == newU.username && u.email == newU.email
              && u.bio == newU.bio && u.role == newU.role) with
        | some _ => (db, { status := 201, body := .echoed b })
        | none =>
            ({ db with users := db.users ++ [newU] },
             { status := 201, body := .echoed b })
  else
    (db, { status := 400, body := .errors })

/-- UserViewSet.me (views.py): bind the serializer to the caller with the
request body (partial); when validation fails answer 400 with the errors —
this happens before the method is inspected. A GET then answers 200 with the
caller's profile. A PATCH first pins validated_data role to the caller's
existing role, saves, and answers 200 with the updated profile. -/
def me (u : User) (m : Method) (b : UserBody) : User × Resp UserResult :=
  if userFieldsValid b then
    match m with
    | .get => (u, { status := 200, body := .profile u })
    | .patch =>
        let pinnedRole := u.role
        let u' : User :=
          { username := b.username.getD u.username,
            email := b.email.getD u.email,
            bio := match b.bio with | some s => some s | none => u.bio,
            role := pinnedRole,
            confirmation_code := u.confirmation_code }
        (u', { status := 200, body := .profile u' })
  else
    (u, { status := 400, body := .errors })

end UserViewSet

/-! ## Reviews endpoint (views.py ReviewsViewSet) -/

inductive ReviewResult where
  | created (r : Reviews)
  | validationError (detail : String)
  | notFound
deriving DecidableEq

/-- Whether the title already carries a review by the author
(`title.reviews.filter(author=request.user).exists()`). -/
def hasAuthorReview (db : DB) (titleId : Nat) (author : String) : Bool :=
  db.reviews.any (fun r => r.title == titleId && r.author == author)

/-- ReviewsViewSet create with perform_create (views.py): get_object_or_404
on the parent title; raise ValidationError with a human-readable message
when the author already has a review on the title; otherwise save the
review with the author and title injected server-side. -/
def createReview (db : DB) (titleId : Nat) (author : String) (text : String)
    (score : Int) : DB × Resp ReviewResult :=
  match db.titles.find? (fun t => t.id == titleId) with
  | none => (db, { status := 404, body := .notFound })
  | some title =>
      if hasAuthorReview db title.id author then
        (db, { status := 400,
               body := .validationError "Можно добавить только один отзыв к произведению" })
      else
        let r : Reviews := { id := db.nextReviewId, title := title.id, author := author,
                             text := text, score := score, pub_date := 0 }
        ({ db with reviews := db.reviews ++ [r], nextReviewId := db.nextReviewId + 1 },
         { status := 201, body := .created r })

/-- PATCH on a review. Modelled from the spec: ReviewsSerializer is absent
from the sources; reviews are mutated via PATCH on their payload (text,
score), while author and title are injected server-side on create and not
writable. -/
def updateReview (db : DB) (reviewId : Nat) (text : String) (score : Int) : DB :=
  { db with reviews := db.reviews.map (fun r =>
      if r.id == reviewId then { r with text := text, score := score } else r) }

/-- DELETE on a review (the ModelViewSet destroy action removes the row). -/
def deleteReview (db : DB) (reviewId : Nat) : DB :=
  { db with reviews := db.reviews.filter (fun r => !(r.id == reviewId)) }

/-- The API operations that touch the reviews table. -/
inductive ReviewOp where
  | create (titleId : Nat) (author : String) (text : String) (score : Int)
  | update (reviewId : Nat) (text : String) (score : Int)
  | delete (reviewId : Nat)
deriving DecidableEq

/-- One review operation applied to the store. -/
def stepReview (db : DB) : ReviewOp → DB
  | .create titleId author text score => (createReview db titleId author text score).1
  | .update reviewId text score => updateReview db reviewId text score
  | .delete reviewId => deleteReview db reviewId

/-- A sequence of review operations applied to the store. -/
def runReviewOps (db : DB) (ops : List ReviewOp) : DB :=
  ops.foldl stepReview db

/-- The one-review-per-(author, title) property of a store. -/
def oneReviewPer (db : DB) : Prop :=
  ∀ (a : String) (t : Nat),
    db.reviews.countP (fun r => r.author == a && r.title == t) ≤ 1

/-! ## Category and genre creation (views.py CategoriesViewSet /
GenresViewSet with the ModelSerializers of api/serializers.py) -/

/-- Characters admitted by a SlugField. -/
def isSlugChar (c : Char) : Bool :=
  c.isAlphanum || c == '-' || c == '_'

/-- Validation generated by CategoriesSerializer (api/serializers.py), a
plain ModelSerializer over the Categories model: name is a required
CharField of at most 256 characters, slug a required SlugField of at most 50
slug characters. The model declares no unique constraint on slug, so no
uniqueness validator is generated. -/
def categoryBodyValid (c : Categories) : Bool :=
  (c.name != "") && decide (c.name.length ≤ 256)
    && (c.slug != "") && c.slug.data.all isSlugChar && decide (c.slug.length ≤ 50)

/-- Validation generated by GenresSerializer (api/serializers.py) over the
Genres model; same fields, and again no uniqueness validator on slug. -/
def genreBodyValid (g : Genres) : Bool :=
  (g.name != "") && decide (g.name.length ≤ 256)
    && (g.slug != "") && g.slug.data.all isSlugChar && decide (g.slug.length ≤ 50)

inductive SlugResult where
  | createdCat (c : Categories)
  | createdGen (g : Genres)
  | errors
deriving DecidableEq

/-- CategoriesViewSet create (the stock ModelViewSet create): a valid body is
persisted as a new row and answered 201; an invalid one yields 400. No slug
lookup happens. -/
def categoryCreate (db : DB) (c : Categories) : DB × Resp SlugResult :=
  if categoryBodyValid c then
    ({ db with categories := db.categories ++ [c] },
     { status := 201, body := .createdCat c })
  else
    (db, { status := 400, body := .errors })

/-- GenresViewSet create (CreateListViewSet's CreateModelMixin): a valid body
is persisted as a new row and answered 201; an invalid one yields 400. No
slug lookup happens. -/
def genreCreate (db : DB) (g : Genres) : DB × Resp SlugResult :=
  if genreBodyValid g then
    ({ db with genres := db.genres ++ [g] },
     { status := 201, body := .createdGen g })
  else
    (db, { status := 400, body := .errors })

/-! ## Concrete fixtures used by the witnesses -/

def titleW : Titles :=
  { id := 1, name := "Dune", year := 1965, description := none,
    genre := "sci-fi", category := "books" }

def aliceReviewW : Reviews :=
  { id := 0, title := 1, author := "alice", text := "great", score := 4, pub_date := 0 }

def bobReviewW : Reviews :=
  { id := 1, title := 1, author := "bob", text := "fine", score := 3, pub_date := 0 }

def aliceW : User :=
  { username := "alice", email := "alice@x.dev", bio := none,
    role := some "user", confirmation_code := 5 }

def dbTitlesW : DB :=
  { DB.empty with titles := [titleW], reviews := [aliceReviewW, bobReviewW] }

def dbReviewW : DB :=
  { DB.empty with titles := [titleW], reviews := [aliceReviewW] }

def dbUsersW : DB :=
  { DB.empty with users := [aliceW] }

def catFilmsA : Categories := { name := "Films", slug := "films" }

def catFilmsB : Categories := { name := "Movies", slug := "films" }

def genRockA : Genres := { name := "Rock", slug := "rock" }

def genRockB : Genres := { name := "Hard Rock", slug := "rock" }

/-- The store obtained by creating two categories and two genres through the
API, the second of each carrying the slug of the first. -/
def dbSlugDup : DB :=
  (genreCreate
    (genreCreate
      (categoryCreate (categoryCreate DB.empty catFilmsA).1 catFilmsB).1
      genRockA).1
    genRockB).1

def signupBodyW : SignUpBody := { username := "carol", email := "carol@x.dev" }

end YaMDB

namespace YaMDB

/-! ## Lemmas about the AVG aggregate -/

lemma avgFold_eq (l : List Int) :
    ∀ (a : ℚ) (n : Nat),
      l.foldl (fun (acc : ℚ × Nat) (s : Int) => (acc.1 + (s : ℚ), acc.2 + 1)) (a, n)
        = (a + ((l.sum : Int) : ℚ), n + l.length) := by
  induction l with
  | nil => intro a n; simp
  | cons x xs ih =>
      intro a n
      simp only [List.foldl_cons, ih, List.sum_cons, List.length_cons]
      refine Prod.ext ?_ ?_
      · push_cast; ring
      · omega

lemma avgAggregate_eq_arithmeticMean (l : List Int) :
    avgAggregate l = arithmeticMean l := by
  unfold avgAggregate arithmeticMean
  simp only [avgFold_eq]
  rcases eq_or_ne l [] with h | h
  · subst h; simp
  · have hlen : l.length ≠ 0 := by
      simpa [List.length_eq_zero] using h
    simp [h, hlen, zero_add]

lemma arithmeticMean_eq_none_iff (l : List Int) :
    arithmeticMean l = none ↔ l = [] := by
  unfold arithmeticMean
  split <;> simp_all

/-! ## C1 — title ratings -/

/-- C1: for every Title in a list or retrieve response of the titles
endpoint, the rating annotation equals the arithmetic mean of the scores of
the Reviews associated with that Title, and is absent (none) exactly when
the Title has no Reviews. -/
theorem rating_is_arithmetic_mean (db : DB) :
    (∀ p ∈ annotate_rating db,
        p.2 = arithmeticMean (reviewScoresOf db p.1.id)
          ∧ (p.2 = none ↔ reviewScoresOf db p.1.id = []))
  ∧ (∀ (titleId : Nat) (p : Titles × Option ℚ),
        titlesRetrieve db titleId = some p →
          p.2 = arithmeticMean (reviewScoresOf db p.1.id)
            ∧ (p.2 = none ↔ reviewScoresOf db p.1.id = [])) := by
  have hall : ∀ p ∈ annotate_rating db,
      p.2 = arithmeticMean (reviewScoresOf db p.1.id)
        ∧ (p.2 = none ↔ reviewScoresOf db p.1.id = []) := by
    intro p hp
    simp only [annotate_rating, List.mem_map] at hp
    obtain ⟨t, ht, rfl⟩ := hp
    refine ⟨avgAggregate_eq_arithmeticMean _, ?_⟩
    rw [avgAggregate_eq_arithmeticMean]
    exact arithmeticMean_eq_none_iff _
  exact ⟨hall, fun titleId p hp => hall p (List.mem_of_find?_eq_some hp)⟩

/-- Witness for C1: on a store with one title carrying two reviews with
scores 4 and 3, the rating annotation of that title is the arithmetic
mean of its review scores. -/
theorem rating_is_arithmetic_mean_witness :
    (titleW, avgAggregate (reviewScoresOf dbTitlesW titleW.id)).2
      = arithmeticMean (reviewScoresOf dbTitlesW titleW.id) :=
  ((rating_is_arithmetic_mean dbTitlesW).1 _
    (by simp [annotate_rating, dbTitlesW, DB.empty])).1

/-! ## C8 — categories retrieve is always 405 -/

/-- C8: for every slug, GET /categories/(slug) answers 405 Method Not
Allowed — never 200 and never 404 — and the response is the same whatever
the store holds, so it does not depend on whether a category with that slug
exists. -/
theorem categories_retrieve_always_405 (db db' : DB) (slug slug' : String) :
    (categoriesRetrieve db slug).2.status = 405
  ∧ (categoriesRetrieve db slug).2.status ≠ 200
  ∧ (categoriesRetrieve db slug).2.status ≠ 404
  ∧ (categoriesRetrieve db slug).1 = db
  ∧ (categoriesRetrieve db slug).2 = (categoriesRetrieve db' slug').2 :=
  ⟨rfl, by simp [categoriesRetrieve], by simp [categoriesRetrieve], rfl, rfl⟩

/-! ## C4 — PATCH /users/me pins the role -/

/-- C4: a PATCH to /users/me whose valid body includes a role field leaves
the caller's stored role unchanged, while the other supplied profile fields
are updated from the body; the response is 200. -/
theorem me_patch_pins_role (u : User) (b : UserBody)
    (hrole : b.role.isSome = true) (hv : userFieldsValid b = true) :
    (UserViewSet.me u Method.patch b).1.role = u.role
  ∧ (UserViewSet.me u Method.patch b).1.username = b.username.getD u.username
  ∧ (UserViewSet.me u Method.patch b).1.email = b.email.getD u.email
  ∧ (UserViewSet.me u Method.patch b).1.bio
      = (match b.bio with | some s => some s | none => u.bio)
  ∧ (UserViewSet.me u Method.patch b).2.status = 200 := by
  simp [UserViewSet.me, hv]

/-- Witness for C4: alice (role user) PATCHes her profile with a body that
sets role to admin and a new bio; her stored role stays user while the bio
is taken from the body. -/
theorem me_patch_pins_role_witness :
    (UserViewSet.me aliceW Method.patch
        { username := none, email := none, bio := some "hi", role := some "admin" }).1.role
      = some "user" := by
  have h := (me_patch_pins_role aliceW
    { username := none, email := none, bio := some "hi", role := some "admin" }
    (by decide) (by decide)).1
  simpa [aliceW] using h

/-! ## C10 — /users/me validates the body before branching on the method -/

/-- C10: UserViewSet.me binds and validates the serializer before the method
is inspected, so a GET whose body fails field validation answers 400 with
the errors rather than 200 with the profile; a GET with a valid body — and
the empty body is valid — answers 200 with the caller's profile. -/
theorem me_validates_before_method (u : User) (b : UserBody) :
    (userFieldsValid b = false →
        UserViewSet.me u Method.get b = (u, { status := 400, body := UserResult.errors }))
  ∧ (userFieldsValid b = true →
        UserViewSet.me u Method.get b = (u, { status := 200, body := UserResult.profile u }))
  ∧ userFieldsValid { username := none, email := none, bio := none, role := none } = true :=
  ⟨fun h => by simp [UserViewSet.me, h],
   fun h => by simp [UserViewSet.me, h],
   by decide⟩

/-- Witness for C10: a GET to /users/me whose body carries the out-of-choices
role value "boss" fails validation and answers 400. -/
theorem me_validates_before_method_witness :
    UserViewSet.me aliceW Method.get
        { username := none, email := none, bio := none, role := some "boss" }
      = (aliceW, { status := 400, body := UserResult.errors }) :=
  (me_validates_before_method aliceW
    { username := none, email := none, bio := none, role := some "boss" }).1 (by decide)

/-! ## C9 — slug uniqueness -/

/-- Counterexample to C9: starting from the empty store, the create
endpoints accept a second category and a second genre whose slug equals an
existing one (both answer 201), leaving two distinct Category records and
two distinct Genre records that share a slug. -/
theorem slug_uniqueness_violated :
    (categoryCreate (categoryCreate DB.empty catFilmsA).1 catFilmsB).2.status = 201
  ∧ (genreCreate
      (genreCreate
        (categoryCreate (categoryCreate DB.empty catFilmsA).1 catFilmsB).1
        genRockA).1 genRockB).2.status = 201
  ∧ dbSlugDup.categories.countP (fun c => c.slug == "films") = 2
  ∧ dbSlugDup.genres.countP (fun g => g.slug == "rock") = 2
  ∧ catFilmsA ∈ dbSlugDup.categories ∧ catFilmsB ∈ dbSlugDup.categories
  ∧ catFilmsA ≠ catFilmsB ∧ catFilmsA.slug = catFilmsB.slug
  ∧ genRockA ∈ dbSlugDup.genres ∧ genRockB ∈ dbSlugDup.genres
  ∧ genRockA ≠ genRockB ∧ genRockA.slug = genRockB.slug := by
  decide

/-- C9 amended: the models declare no unique constraint on slug and the
create paths perform no slug lookup, so slug uniqueness is not an invariant:
any valid category or genre body is appended with 201 whatever slugs the
store already holds. -/
theorem slug_create_unchecked (db : DB) (c : Categories) (g : Genres)
    (hc : categoryBodyValid c = true) (hg : genreBodyValid g = true) :
    (categoryCreate db c).2.status = 201
  ∧ (categoryCreate db c).1.categories = db.categories ++ [c]
  ∧ (genreCreate db g).2.status = 201
  ∧ (genreCreate db g).1.genres = db.genres ++ [g] := by
  simp [categoryCreate, genreCreate, hc, hg]

/-- Witness for the amended C9: a store already holding the slug films
accepts a second category with that slug. -/
theorem slug_create_unchecked_witness :
    (categoryCreate { DB.empty with categories := [catFilmsA] } catFilmsB).2.status = 201 :=
  (slug_create_unchecked { DB.empty with categories := [catFilmsA] }
    catFilmsB genRockA (by decide) (by decide)).1

/-! ## C7 — admin user-create path -/

/-- C7: on a valid body, POST /users answers 400 and leaves the store
unchanged when some existing user already holds the submitted email;
otherwise it answers 201 and appends the new user built from the body. -/
theorem user_create_email_conflict (db : DB) (b : UserBody)
    (hv : userRequiredValid b = true) :
    ((∃ u ∈ db.users, u.email = b.email.getD "") →
        (UserViewSet.create db b).1 = db
      ∧ (UserViewSet.create db b).2.status = 400)
  ∧ ((∀ u ∈ db.users, u.email ≠ b.email.getD "") →
        (UserViewSet.create db b).2.status = 201
      ∧ (UserViewSet.create db b).1.users
          = db.users ++
            [{ username := b.username.getD "", email := b.email.getD "",
               bio := b.bio, role := b.role, confirmation_code := 0 }]) := by
  constructor
  · rintro ⟨u, hu, hemail⟩
    cases hfind : db.users.find? (fun v => v.email == b.email.getD "") with
    | none =>
        exact absurd (by simpa using List.find?_eq_none.mp hfind u hu) (by simp [hemail])
    | some v =>
        simp [UserViewSet.create, hv, hfind]
  · intro hnone
    have hfind : db.users.find? (fun v => v.email == b.email.getD "") = none :=
      List.find?_eq_none.mpr (fun v hv' => by simpa using hnone v hv')
    have hfind2 : db.users.find? (fun v =>
        v.username == b.username.getD "" && v.email == b.email.getD ""
          && v.bio == b.bio && v.role == b.role) = none := by
      refine List.find?_eq_none.mpr (fun v hv' hpred => ?_)
      have : v.email = b.email.getD "" := by
        have h1 := (Bool.and_elim_left (Bool.and_elim_left hpred))
        simpa using Bool.and_elim_right h1
      exact hnone v hv' this
    simp [UserViewSet.create, hv, hfind, hfind2]

/-- Witness for C7: a store holding alice rejects a create carrying alice's
email with 400 and stays unchanged. -/
theorem user_create_email_conflict_witness :
    (UserViewSet.create dbUsersW
        { username := some "bob", email := some "alice@x.dev",
          bio := none, role := none }).1 = dbUsersW
  ∧ (UserViewSet.create dbUsersW
        { username := some "bob", email := some "alice@x.dev",
          bio := none, role := none }).2.status = 400 :=
  (user_create_email_conflict dbUsersW
      { username := some "bob", email := some "alice@x.dev",
        bio := none, role := none } (by decide)).1
    ⟨aliceW, by simp [dbUsersW, DB.empty], by decide⟩

/-! ## Counting lemmas -/

lemma countP_map_of_pred_inv {α : Type} (l : List α) (p : α → Bool) (f : α → α)
    (hf : ∀ x, p (f x) = p x) : (l.map f).countP p = l.countP p := by
  induction l with
  | nil => rfl
  | cons x xs ih => simp [List.countP_cons, ih, hf]

lemma countP_filter_le {α : Type} (l : List α) (p q : α → Bool) :
    (l.filter q).countP p ≤ l.countP p := by
  induction l with
  | nil => simp
  | cons x xs ih =>
      rw [List.filter_cons]
      by_cases hq : q x = true
      · rw [if_pos hq, List.countP_cons, List.countP_cons]
        exact Nat.add_le_add ih (le_refl _)
      · rw [if_neg hq, List.countP_cons]
        exact le_trans ih (Nat.le_add_right _ _)

/-! ## C2 — one review per (author, title) -/

lemma createReview_404 (db : DB) (titleId : Nat) (author text : String) (score : Int)
    (hfind : db.titles.find? (fun x => x.id == titleId) = none) :
    createReview db titleId author text score
      = (db, { status := 404, body := ReviewResult.notFound }) := by
  simp [createReview, hfind]

lemma createReview_duplicate (db : DB) (titleId : Nat) (author text : String) (score : Int)
    (title : Titles) (hfind : db.titles.find? (fun x => x.id == titleId) = some title)
    (hex : hasAuthorReview db title.id author = true) :
    createReview db titleId author text score
      = (db, { status := 400,
               body := ReviewResult.validationError
                 "Можно добавить только один отзыв к произведению" }) := by
  simp [createReview, hfind, hex]

lemma createReview_ok (db : DB) (titleId : Nat) (author text : String) (score : Int)
    (title : Titles) (hfind : db.titles.find? (fun x => x.id == titleId) = some title)
    (hex : hasAuthorReview db title.id author = false) :
    createReview db titleId author text score
      = ({ db with
             reviews := db.reviews ++
               [{ id := db.nextReviewId, title := title.id, author := author,
                  text := text, score := score, pub_date := 0 }],
             nextReviewId := db.nextReviewId + 1 },
         { status := 201,
           body := ReviewResult.created
             { id := db.nextReviewId, title := title.id, author := author,
               text := text, score := score, pub_date := 0 } }) := by
  simp [createReview, hfind, hex]

lemma oneReviewPer_create (db : DB) (titleId : Nat) (author text : String) (score : Int)
    (h : oneReviewPer db) :
    oneReviewPer (createReview db titleId author text score).1 := by
  intro a t
  cases hfind : db.titles.find? (fun x => x.id == titleId) with
  | none =>
      rw [createReview_404 db titleId author text score hfind]
      exact h a t
  | some title =>
      by_cases hex : hasAuthorReview db title.id author = true
      · rw [createReview_duplicate db titleId author text score title hfind hex]
        exact h a t
      · rw [createReview_ok db titleId author text score title hfind
          (Bool.eq_false_iff.mpr hex)]
        dsimp only
        rw [List.countP_append, List.countP_cons, List.countP_nil]
        have hexF : db.reviews.any
            (fun r => r.title == title.id && r.author == author) = false :=
          Bool.eq_false_iff.mpr hex
        have hall := List.any_eq_false.mp hexF
        by_cases hpr : ((author == a) && (title.id == t)) = true
        · rw [Bool.and_eq_true] at hpr
          obtain ⟨ha, ht⟩ := hpr
          have ha' : author = a := beq_iff_eq.mp ha
          have ht' : title.id = t := beq_iff_eq.mp ht
          have hzero : db.reviews.countP (fun r => r.author == a && r.title == t) = 0 := by
            rw [List.countP_eq_zero]
            intro r hr hcontra
            rw [Bool.and_eq_true] at hcontra
            obtain ⟨h1, h2⟩ := hcontra
            refine hall r hr ?_
            rw [Bool.and_eq_true]
            exact ⟨by rw [ht']; exact h2, by rw [ha']; exact h1⟩
          show db.reviews.countP (fun r => r.author == a && r.title == t) +
              (0 + if ((author == a && title.id == t) = true) then 1 else 0) ≤ 1
          rw [hzero, if_pos (by rw [Bool.and_eq_true]; exact ⟨ha, ht⟩)]
        · show db.reviews.countP (fun r => r.author == a && r.title == t) +
              (0 + if ((author == a && title.id == t) = true) then 1 else 0) ≤ 1
          rw [if_neg hpr]
          have := h a t
          omega

lemma oneReviewPer_update (db : DB) (reviewId : Nat) (text : String) (score : Int)
    (h : oneReviewPer db) :
    oneReviewPer (updateReview db reviewId text score) := by
  intro a t
  unfold updateReview
  dsimp only
  rw [countP_map_of_pred_inv]
  · exact h a t
  · intro r
    by_cases hid : (r.id == reviewId) = true <;> simp [hid]

lemma oneReviewPer_delete (db : DB) (reviewId : Nat) (h : oneReviewPer db) :
    oneReviewPer (deleteReview db reviewId) := by
  intro a t
  unfold deleteReview
  dsimp only
  exact le_trans (countP_filter_le _ _ _) (h a t)

lemma oneReviewPer_step (db : DB) (op : ReviewOp) (h : oneReviewPer db) :
    oneReviewPer (stepReview db op) := by
  cases op with
  | create titleId author text score => exact oneReviewPer_create db titleId author text score h
  | update reviewId text score => exact oneReviewPer_update db reviewId text score h
  | delete reviewId => exact oneReviewPer_delete db reviewId h

lemma oneReviewPer_run (db : DB) (ops : List ReviewOp) (h : oneReviewPer db) :
    oneReviewPer (runReviewOps db ops) := by
  induction ops generalizing db with
  | nil => exact h
  | cons op ops ih => exact ih (stepReview db op) (oneReviewPer_step db op h)

/-- C2: one review per (author, title) is an invariant of every sequence of
review operations, and a create by an author who already has a review on the
title answers 400 with the human-readable validation message and leaves the
store unchanged. -/
theorem one_review_per_author_title (db : DB) (h : oneReviewPer db) :
    (∀ ops : List ReviewOp, oneReviewPer (runReviewOps db ops))
  ∧ (∀ (titleId : Nat) (author text : String) (score : Int) (title : Titles),
        db.titles.find? (fun x => x.id == titleId) = some title →
        hasAuthorReview db titleId author = true →
          createReview db titleId author text score
            = (db, { status := 400,
                     body := ReviewResult.validationError
                       "Можно добавить только один отзыв к произведению" })) := by
  constructor
  · intro ops
    exact oneReviewPer_run db ops h
  · intro titleId author text score title hfind hex
    have hid : title.id = titleId := by simpa using List.find?_some hfind
    exact createReview_duplicate db titleId author text score title hfind (by rw [hid]; exact hex)

/-- Witness for C2: alice already reviewed title 1, so her second POST is
answered 400 with the validation message and the store is untouched. -/
theorem one_review_per_author_title_witness :
    createReview dbReviewW 1 "alice" "again" 2
      = (dbReviewW, { status := 400,
                      body := ReviewResult.validationError
                        "Можно добавить только один отзыв к произведению" }) :=
  (one_review_per_author_title dbReviewW
      (by
        intro a t
        simp only [dbReviewW, DB.empty, List.countP_cons, List.countP_nil]
        split <;> omega)).2
    1 "alice" "again" 2 titleW (by decide) (by decide)

/-! ## C3 — get_token status cases -/

lemma find?_username_unique (db : DB) (uname : String)
    (huniq : ∀ u1 ∈ db.users, ∀ u2 ∈ db.users, u1.username = u2.username → u1 = u2)
    (u : User) (hu : u ∈ db.users) (hname : u.username = uname) :
    db.users.find? (fun v => v.username == uname) = some u := by
  cases hfind : db.users.find? (fun v => v.username == uname) with
  | none =>
      have hnone := List.find?_eq_none.mp hfind u hu
      simp [hname] at hnone
  | some v =>
      have hvmem : v ∈ db.users := List.mem_of_find?_eq_some hfind
      have hvp : v.username = uname := by
        simpa using List.find?_some hfind
      have hvu : v = u := huniq v hvmem u hu (by rw [hvp, hname])
      rw [hvu]

/-- C3: with a well-formed body and the store's usernames pairwise distinct
(the username column is unique), get_token answers 404 when no user carries
the submitted username, 400 when the user exists but the stored
confirmation code differs from the submitted one, and 200 with a token
bound to the user's identity and role when it matches. -/
theorem get_token_statuses (db : DB) (b : GetTokenBody)
    (huniq : ∀ u1 ∈ db.users, ∀ u2 ∈ db.users, u1.username = u2.username → u1 = u2) :
    ((∀ u ∈ db.users, u.username ≠ b.username) →
        get_token db b = (db, { status := 404, body := TokenResult.errors }))
  ∧ (∀ u ∈ db.users, u.username = b.username →
        u.confirmation_code ≠ b.confirmation_code →
          get_token db b = (db, { status := 400, body := TokenResult.errors }))
  ∧ (∀ u ∈ db.users, u.username = b.username →
        u.confirmation_code = b.confirmation_code →
          get_token db b = (db, { status := 200,
                                  body := TokenResult.token
                                    { username := u.username, role := u.role } })) := by
  refine ⟨?_, ?_, ?_⟩
  · intro hnone
    have hfind : db.users.find? (fun v => v.username == b.username) = none :=
      List.find?_eq_none.mpr (fun v hv => by simpa using hnone v hv)
    simp [get_token, hfind]
  · intro u hu hname hcode
    have hfind := find?_username_unique db b.username huniq u hu hname
    simp [get_token, hfind, hcode]
  · intro u hu hname hcode
    have hfind := find?_username_unique db b.username huniq u hu hname
    simp [get_token, hfind, hcode, get_tokens_for_user]

/-- Witness for C3: alice with the matching stored code 5 exchanges it for a
token carrying her username and role. -/
theorem get_token_statuses_witness :
    get_token dbUsersW { username := "alice", confirmation_code := 5 }
      = (dbUsersW, { status := 200,
                     body := TokenResult.token
                       { username := "alice", role := some "user" } }) := by
  have h := (get_token_statuses dbUsersW { username := "alice", confirmation_code := 5 }
      (by
        intro u1 h1 u2 h2 hname
        simp [dbUsersW, DB.empty] at h1 h2
        rw [h1, h2])).2.2
    aliceW (by simp [dbUsersW, DB.empty]) rfl rfl
  simpa [aliceW] using h

/-! ## C6 — get_token is read-only and codes have no expiry -/

lemma get_token_fst (db : DB) (b : GetTokenBody) : (get_token db b).1 = db := by
  unfold get_token
  cases db.users.find? (fun u => u.username == b.username) with
  | none => rfl
  | some u =>
      dsimp only
      split <;> rfl

lemma getTokenMany_fst (db : DB) (bs : List GetTokenBody) : getTokenMany db bs = db := by
  induction bs generalizing db with
  | nil => rfl
  | cons x xs ih =>
      show getTokenMany (get_token db x).1 xs = db
      rw [get_token_fst]
      exact ih db

/-- C6: get_token never writes the store — a single call and any sequence of
calls leave it unchanged — so a (username, code) pair that exchanges
successfully exchanges successfully again after any number of further
get_token calls: there is no expiry and no single-use invalidation. -/
theorem get_token_no_invalidation (db : DB) (b : GetTokenBody) (bs : List GetTokenBody) :
    (get_token db b).1 = db
  ∧ getTokenMany db bs = db
  ∧ ((get_token db b).2.status = 200 →
        (get_token (getTokenMany db bs) b).2.status = 200) := by
  refine ⟨get_token_fst db b, getTokenMany_fst db bs, ?_⟩
  intro h200
  rw [getTokenMany_fst]
  exact h200

/-- Witness for C6: alice's code 5 still exchanges for a token after two
further get_token calls (one of them with a wrong code). -/
theorem get_token_no_invalidation_witness :
    (get_token
        (getTokenMany dbUsersW
          [{ username := "alice", confirmation_code := 5 },
           { username := "alice", confirmation_code := 0 }])
        { username := "alice", confirmation_code := 5 }).2.status = 200 :=
  (get_token_no_invalidation dbUsersW { username := "alice", confirmation_code := 5 }
      [{ username := "alice", confirmation_code := 5 },
       { username := "alice", confirmation_code := 0 }]).2.2 (by decide)

/-! ## C5 — signup is idempotent on the user set and refreshes the code -/

lemma getOrCreate_countP (db : DB) (b : SignUpBody) (h : pairCount db b ≤ 1) :
    (getOrCreateUsers db b).countP (pairPred b) = 1 := by
  unfold getOrCreateUsers
  cases hfind : db.users.find? (pairPred b) with
  | some u =>
      have hmem : u ∈ db.users := List.mem_of_find?_eq_some hfind
      have hp : pairPred b u = true := List.find?_some hfind
      have hpos : 0 < db.users.countP (pairPred b) :=
        List.countP_pos_iff.mpr ⟨u, hmem, hp⟩
      have hle : db.users.countP (pairPred b) ≤ 1 := h
      exact Nat.le_antisymm hle hpos
  | none =>
      have hzero : db.users.countP (pairPred b) = 0 :=
        List.countP_eq_zero.mpr (List.find?_eq_none.mp hfind)
      rw [List.countP_append, hzero, List.countP_cons, List.countP_nil]
      have hself : pairPred b
          { username := b.username, email := b.email, bio := none, role := none,
            confirmation_code := 0 } = true := by
        simp [pairPred]
      rw [if_pos hself]

lemma pairPred_set_code (db : DB) (b : SignUpBody) (u : User) :
    pairPred b (if pairPred b u then { u with confirmation_code := generator db } else u)
      = pairPred b u := by
  by_cases hp : pairPred b u = true
  · rw [if_pos hp, hp]
    simpa [pairPred] using hp
  · rw [if_neg hp]

lemma storeCode_countP (db : DB) (b : SignUpBody) (users : List User) :
    (storeCode db b users).countP (pairPred b) = users.countP (pairPred b) := by
  unfold storeCode
  exact countP_map_of_pred_inv users (pairPred b) _ (pairPred_set_code db b)

lemma storeCode_code (db : DB) (b : SignUpBody) (users : List User) :
    ∀ u ∈ storeCode db b users, pairPred b u = true →
      u.confirmation_code = db.codeSeq := by
  intro u hu hp
  unfold storeCode at hu
  obtain ⟨v, hv, rfl⟩ := List.mem_map.mp hu
  by_cases hpv : pairPred b v = true
  · rw [if_pos hpv]
    rfl
  · rw [if_neg hpv] at hp ⊢
    exact absurd hp hpv

lemma signup_step (db : DB) (b : SignUpBody) (hv : signUpValid b = true)
    (h : pairCount db b ≤ 1) :
    (signup db b).2.status = 200
  ∧ pairCount (signup db b).1 b = 1
  ∧ (∀ u ∈ (signup db b).1.users, pairPred b u = true →
        u.confirmation_code = db.codeSeq)
  ∧ (signup db b).1.codeSeq = db.codeSeq + 1 := by
  have hsig : signup db b
      = ({ db with users := storeCode db b (getOrCreateUsers db b),
                   codeSeq := db.codeSeq + 1 },
         { status := 200, body := SignUpResult.echoed b.username b.email }) := by
    simp [signup, hv]
  rw [hsig]
  refine ⟨rfl, ?_, ?_, rfl⟩
  · show (storeCode db b (getOrCreateUsers db b)).countP (pairPred b) = 1
    rw [storeCode_countP]
    exact getOrCreate_countP db b h
  · intro u hu hp
    exact storeCode_code db b (getOrCreateUsers db b) u hu hp

/-- C5: with a well-formed body and a store holding at most one row with the
(username, email) pair, repeated signup calls with the pair are idempotent
on the user set: every call answers 200, after any positive number of calls
exactly one row carries the pair, each call overwrites that row's
confirmation code with the freshly generated code of that call, and the
generator counter advances by one per call so those codes are pairwise
distinct. -/
theorem signup_idempotent (db : DB) (b : SignUpBody)
    (hv : signUpValid b = true) (h : pairCount db b ≤ 1) :
    (∀ n, (signup (signupMany db b n) b).2.status = 200)
  ∧ (∀ n, pairCount (signupMany db b (n + 1)) b = 1)
  ∧ (∀ n, ∀ u ∈ (signupMany db b (n + 1)).users, pairPred b u = true →
        u.confirmation_code = (signupMany db b n).codeSeq)
  ∧ (∀ n, (signupMany db b n).codeSeq = db.codeSeq + n) := by
  have hinv : ∀ n, pairCount (signupMany db b n) b ≤ 1 := by
    intro n
    induction n with
    | zero => exact h
    | succ k ih =>
        have hk := (signup_step (signupMany db b k) b hv ih).2.1
        exact le_of_eq hk
  refine ⟨?_, ?_, ?_, ?_⟩
  · intro n
    exact (signup_step (signupMany db b n) b hv (hinv n)).1
  · intro n
    exact (signup_step (signupMany db b n) b hv (hinv n)).2.1
  · intro n u hu hp
    exact (signup_step (signupMany db b n) b hv (hinv n)).2.2.1 u hu hp
  · intro n
    induction n with
    | zero => rfl
    | succ k ih =>
        have hstep := (signup_step (signupMany db b k) b hv (hinv k)).2.2.2
        show (signup (signupMany db b k) b).1.codeSeq = db.codeSeq + (k + 1)
        rw [hstep, ih]
        omega

/-- Witness for C5: two successive signups of carol on the empty store — the
second call still answers 200 and exactly one carol row exists after it. -/
theorem signup_idempotent_witness :
    (signup (signupMany DB.empty signupBodyW 1) signupBodyW).2.status = 200
  ∧ pairCount (signupMany DB.empty signupBodyW 2) signupBodyW = 1 :=
  ⟨(signup_idempotent DB.empty signupBodyW (by decide) (by decide)).1 1,
   (signup_idempotent DB.empty signupBodyW (by decide) (by decide)).2.1 1⟩

end YaMDB
